import Mathlib

/-!
Verification of the container-recycling / windowed-pagination algorithms of the
longlost/app-lists repository (lite-list.js, recycled-list.js, db-list-mixin.js,
and the newer revisions of those files shipped alongside them).

Pixel quantities (scroll offsets, bounding boxes, container offsets) are modelled
as rationals; list indices as naturals; index arithmetic that can go negative in
the JavaScript source is carried out in the integers, mirroring the source
expressions.  JavaScript `Array.prototype.slice` / `splice` are modelled by
`List.take` / `List.drop` compositions.  Entries of the pagination backing array
may have been nulled by garbage collection, so the backing array is a
`List (Option _)`, with `none` standing for a slot holding `undefined`.
-/

/-- JavaScript `array.slice(s, e)` for non-negative bounds: elements from index
`s` (inclusive) to `e` (exclusive), clamped to the array. -/
def jsSlice (l : List α) (s e : Nat) : List α :=
  (l.take e).drop s

/-- JavaScript `array.splice(s, delCount, ...ins)` for a non-negative start `s`:
the elements of `ins` replace the `delCount` (clamped) elements starting at `s`.
`take` and `drop` perform the same clamping as the JavaScript method. -/
def jsSplice (l : List β) (s delCount : Nat) (ins : List β) : List β :=
  l.take s ++ ins ++ l.drop (s + delCount)

/-- `__computeData(infinite, items, count, start)` of `lite-list.js` (the same
function appears verbatim in `recycled-list.js` and in the newer lite-list
revision): the Data Window.  The JavaScript guard (`!items`, `typeof start`)
only rejects absent inputs, which the typed embedding rules out. -/
def computeData (infinite : Bool) (items : List α) (count start : Nat) : List α :=
  let e := start + count
  let length := items.length
  if infinite ∧ e > length then
    let delta := e - length
    let beginning := items.drop start      -- items.slice(start)
    let ending := items.take delta         -- items.slice(0, delta)
    beginning ++ ending
  else
    jsSlice items start e                  -- items.slice(start, end)

/-- Scroll layout of the list. -/
inductive Layout
  | vertical
  | horizontal
deriving DecidableEq

/-- A DOMRect-style bounding box (only the fields the algorithms read). -/
structure Bbox where
  top    : ℚ
  left   : ℚ
  width  : ℚ
  height : ℚ
deriving DecidableEq

/-- Leading-edge coordinate of the sampled item for the given layout
(`layout === 'vertical' ? top : left`). -/
def itemStart (l : Layout) (b : Bbox) : ℚ :=
  if l = Layout.vertical then b.top else b.left

/-- Extent of the sampled item along the scroll axis
(`layout === 'vertical' ? height : width`). -/
def itemSize (l : Layout) (b : Bbox) : ℚ :=
  if l = Layout.vertical then b.height else b.width

/-- `__computeVirtualIndex(layout, sampleBbox, per, scroll)` of `lite-list.js`:
the Virtual Index Calculator.  `none` inputs model `undefined` (or a
non-number `scroll`), on which the guards return 0. -/
def computeVirtualIndex (layout : Option Layout) (sampleBbox : Option Bbox)
    (per : Nat) (scroll : Option ℚ) : ℤ :=
  match layout, sampleBbox, scroll with
  | some l, some b, some s =>
    if b.height = 0 ∨ b.width = 0 then 0
    else
      let beginning := itemStart l b
      let size := itemSize l b
      let sectionIdx := ⌊|(s - beginning) / size|⌋   -- `section` in the source
      sectionIdx * per
  | _, _, _ => 0

/-- `__computeVirtualIndex(layout, sampleBbox, scroll)` of `recycled-list.js`:
identical, but without the items-per-line factor. -/
def computeVirtualIndexRecycled (layout : Option Layout) (sampleBbox : Option Bbox)
    (scroll : Option ℚ) : ℤ :=
  match layout, sampleBbox, scroll with
  | some l, some b, some s =>
    if b.height = 0 ∨ b.width = 0 then 0
    else
      let beginning := itemStart l b
      let dimension := itemSize l b
      ⌊|(s - beginning) / dimension|⌋
  | _, _, _ => 0

/-- Scroll/pagination travel direction (`'forward'` / `'reverse'`). -/
inductive Direction
  | forward
  | reverse
deriving DecidableEq

/-- The slice of controller state that drives end-of-data detection:
the last recorded `_resultsCount` (`none` before any fetch resolved) and the
`_endDetected` flag. -/
structure EndState where
  resultsCount : Option Nat
  endDetected  : Bool
deriving DecidableEq

/-- `__resultsCountChanged(newCount, oldCount)` of `db-list-mixin.js` (identical
in the newer revision): the observer body, as the Boolean value it stores into
`_endDetected`.  `dir` is `this._pagination?.direction` at observer time; a
missing `oldCount` models the first ever assignment (`newCount < undefined` is
false in JavaScript). -/
def resultsCountChanged (dir : Option Direction) (newCount : Nat)
    (oldCount : Option Nat) : Bool :=
  match oldCount with
  | some old => decide (newCount < old) && decide (dir = some Direction.forward)
  | none => false

/-- One resolved fetch writing `this._resultsCount = count`.  The property has
a Polymer observer, which fires `__resultsCountChanged` only when the stored
value actually changes (Polymer dirty-checks with `===`); an assignment of the
unchanged value leaves `_endDetected` untouched. -/
def recordFetch (dir : Option Direction) (count : Nat) (s : EndState) : EndState :=
  if s.resultsCount = some count then
    { s with resultsCount := some count }
  else
    { resultsCount := some count
      endDetected  := resultsCountChanged dir count s.resultsCount }

/-- Fold a sequence of resolved fetches (direction at observer time, result
count) through `recordFetch`. -/
def runFetches (s : EndState) (evs : List (Option Direction × Nat)) : EndState :=
  evs.foldl (fun st e => recordFetch e.1 e.2 st) s

/-- `clamp(min, max, num)` from the `@longlost/app-core/lambda.js` dependency:
`Math.min(Math.max(num, min), max)`. -/
def clamp (lo hi n : ℤ) : ℤ :=
  min (max n lo) hi

/-- `__garbageCollect(index, direction, batchSize)` of the newer DbListMixin
revision (src/unnamed/part_004, lines 391-429).  `hasPagination` models the
`!this._pagination` guard; nulled slots become `none`; all index arithmetic is
integer arithmetic exactly as in the source.  The final bounds guard makes the
splice exact, so the result is `take start ++ replicate count none ++ drop
(start+count)`. -/
def garbageCollect (minBatch : Nat) (hasPagination : Bool) (index : Nat)
    (dir : Direction) (batchSize : Nat) (listItems : List (Option α)) :
    List (Option α) :=
  if ¬hasPagination ∨ batchSize ≤ minBatch then listItems
  else
    let len : ℤ := listItems.length
    let distance : ℤ := (batchSize : ℤ) * 2
    let garbageIndex : ℤ :=
      if dir = Direction.forward then (index : ℤ) - distance
      else (index : ℤ) + distance
    let totalGarbage : ℤ :=
      if dir = Direction.forward then garbageIndex else len - garbageIndex
    let count : ℤ := clamp 0 (batchSize : ℤ) totalGarbage
    let start : ℤ :=
      if dir = Direction.forward then garbageIndex - count else garbageIndex
    if start < 0 ∨ start + count > len ∨ count = 0 then listItems
    else jsSplice listItems start.toNat count.toNat
           (List.replicate count.toNat none)

/-- `__garbageCollect(index, direction)` of the older `db-list-mixin.js`
(lines 316-339).  There is no bounds guard; the splice start is
`garbageIndex` itself, and a negative JavaScript splice start counts from the
end of the array (`max 0 (len + start)`). -/
def garbageCollectDb (minBatch maxBatch : Nat) (hasPagination : Bool)
    (index : Nat) (dir : Option Direction) (listItems : List (Option α)) :
    List (Option α) :=
  if ¬hasPagination ∨ maxBatch ≤ minBatch then listItems
  else
    let len : ℤ := listItems.length
    let garbageIndex : ℤ :=
      if dir = some Direction.forward then (index : ℤ) - (maxBatch : ℤ)
      else (index : ℤ) + (maxBatch : ℤ)
    let totalGarbage : ℤ :=
      if dir = some Direction.forward then garbageIndex else len - garbageIndex
    let count : ℤ := clamp 0 (maxBatch : ℤ) totalGarbage
    let start : ℤ := if garbageIndex < 0 then max 0 (len + garbageIndex)
                     else garbageIndex
    jsSplice listItems start.toNat count.toNat (List.replicate count.toNat none)

/-- The splice performed by the fetch-result callback of the newer DbListMixin
revision (src/unnamed/part_004, lines 461-503), restricted to the case where
`_listItems` is already an array: reverse fetches reverse the valid batch and
splice so the block ends at the anchor (`start = Math.max(0, index -
(count-1))`, computed over the integers because `count - 1` is `-1` for an
empty batch); forward fetches splice starting at the anchor (`index || 0`). -/
def spliceIn (dir : Direction) (validResults : List α) (index : Nat)
    (listItems : List (Option α)) : List (Option α) :=
  let results := if dir = Direction.reverse then validResults.reverse
                 else validResults
  let count := results.length
  let lastIndex : ℤ := (count : ℤ) - 1
  let start : ℤ :=
    if dir = Direction.reverse then max 0 ((index : ℤ) - lastIndex)
    else (index : ℤ)
  jsSplice listItems start.toNat count (results.map some)

/-- The splice performed by the fetch-result callback of the older
`db-list-mixin.js` (lines 386-422): the batch is NOT reversed and the reverse
start `index - (validResults.length - 1)` is not clamped at 0 (a negative
JavaScript splice start counts from the end of the array). -/
def spliceInDb (dir : Direction) (validResults : List α) (index : Nat)
    (listItems : List (Option α)) : List (Option α) :=
  let count := validResults.length
  let start : ℤ :=
    if dir = Direction.reverse then (index : ℤ) - ((count : ℤ) - 1)
    else (index : ℤ)
  let s : ℤ := if start < 0 then max 0 ((listItems.length : ℤ) + start)
               else start
  jsSplice listItems s.toNat count (validResults.map some)

/-- A `lite-list-pagination-changed` event payload, as read by the newer
DbListMixin revision (`{count, direction, index, per}`; the bounding boxes it
also carries are not consulted by the handler). -/
structure Pgn where
  count     : Nat
  direction : Direction
  index     : Nat
  per       : Nat
deriving DecidableEq

/-- The controller state consulted and written by `__paginationChangedHandler`. -/
structure PgState where
  pagination        : Option Pgn
  paginationWaiting : Option Pgn
  busy              : Bool
  endDetected       : Bool
  resolution        : Nat
deriving DecidableEq

/-- `__paginationChangedHandler(event)` of the newer DbListMixin revision
(src/unnamed/part_004, lines 576-631).  Optional-chaining comparisons with an
absent `this._pagination` are false in JavaScript, except `undefined !== 0`
which is true; each test is transcribed accordingly. -/
def paginationChangedHandler (s : PgState) (p : Pgn) : PgState :=
  -- At the end. Done paginating: `this._endDetected && index >= this._pagination?.index`.
  if s.endDetected && (match s.pagination with
                       | some q => decide (p.index ≥ q.index)
                       | none => false) then s
  -- Returning to zero in reverse after a reverse pagination.
  else if decide (p.direction = Direction.reverse) &&
          (match s.pagination with
           | some q => decide (q.direction = Direction.reverse)
           | none => false) &&
          decide (p.index = 0) then s
  else
    let remainder := p.index % s.resolution
    let pageIsThisSection := decide (remainder ≥ p.per)
    -- Invalid initialization state: `this._pagination?.index === 0 && this._pagination?.count > count`.
    if (match s.pagination with
        | some q => decide (q.index = 0) && decide (q.count > p.count)
        | none => false) then s
    -- Skip this tick: `this._pagination?.index !== 0 && remainder !== 0 && pageIsThisSection`.
    else if (match s.pagination with
             | some q => decide (q.index ≠ 0)
             | none => true) && decide (remainder ≠ 0) && pageIsThisSection then s
    else if s.busy then { s with paginationWaiting := some p }
    else { s with pagination := some p }

/-- A backing-array record as stored by the pagination controller: the data
payload is irrelevant here, only the optional anchor document handle (the
Firestore `doc`) matters.  A record spliced in by a fetch always has a doc; a
placeholder may not. -/
structure Rec where
  doc : Option Nat
deriving DecidableEq

/-- `this._listItems?.at(index)?.doc` — `none` when the backing array is
absent, the index is out of range, the slot was nulled by garbage collection,
or the record has no doc. -/
def entryDoc (listItems : Option (List (Option Rec))) (index : Nat) : Option Nat :=
  match listItems with
  | none => none
  | some l =>
    match l.get? index with
    | none => none            -- out of range: at(index) is undefined
    | some none => none       -- nulled slot: undefined?.doc is undefined
    | some (some r) => r.doc

/-- Effect of one `__updateItems` invocation: either nothing happens at all
(the guard returned before any state was touched), or only the previous
subscription was cancelled (`!visible`), or a fetch is started (unsubscribe,
`busy := true`, garbage collection, then a subscription whose query is
anchored at `anchor` via `startAt` when present, using the reverse constraint
set when `useReverse`, limited to `limit`). -/
inductive UpdateEffect
  | noop
  | unsubOnly
  | fetch (anchor : Option Nat) (useReverse : Bool) (limit : Nat)
deriving DecidableEq

/-- `__updateItems(visible, constraints, reverseConstraints, ref, batchSize,
index)` of the newer DbListMixin revision (src/unnamed/part_004, lines
432-458) together with the top-level `getQueryConstraints` helper (lines
80-104): only the guard structure and the anchored query it builds are
modelled (`numConstraints`/`numReverse` are the lengths of the constraint
arrays, `hasRef` the presence of the collection ref). -/
def updateItems (visible : Bool) (numConstraints numReverse : Nat)
    (hasRef : Bool) (batchSize index : Nat) (dir : Direction)
    (listItems : Option (List (Option Rec))) : UpdateEffect :=
  let doc := entryDoc listItems index
  if numConstraints = 0 ∨ numReverse = 0 ∨ ¬hasRef ∨ batchSize = 0 ∨
     (index > 0 ∧ doc = none) then
    UpdateEffect.noop
  else if ¬visible then UpdateEffect.unsubOnly
  else
    -- getQueryConstraints: `notAtStart = index > 0`; startAt(doc) pushed only
    -- when notAtStart; reverse constraints used when reverse and notAtStart.
    let notAtStart := index > 0
    UpdateEffect.fetch (if notAtStart then doc else none)
      (dir = Direction.reverse ∧ notAtStart) batchSize

/-- A JavaScript error as seen by the fetch error callback: an optional
message, modelled as a character list so that `String.prototype.includes`
becomes the decidable infix relation on lists. -/
structure JsError where
  message : Option (List Char)

/-- The anchor-missing marker text. -/
def docMissingMsg : List Char := "document does not exist".toList

/-- `errorCallback(error)` of DbListMixin (identical guard in both revisions):
returns the new `_listItems` value paired with whether `console.error` ran.
`error.message && error.message.includes('document does not exist')` is truthy
only for a present, non-empty message containing the marker. -/
def errorCallback (error : JsError) (listItems : Option (List (Option Rec))) :
    Option (List (Option Rec)) × Bool :=
  match error.message with
  | some msg =>
    if msg ≠ [] ∧ docMissingMsg <:+: msg then (listItems, false)
    else (none, true)
  | none => (none, true)

/-- A recyclable container as seen by `__reposition`: its measured
bounding-box coordinate along the scroll axis (the entry of `this._sorted`,
whose `boundingClientRect` snapshot does not change between two consecutive
calls), and its cached `previous` offset (`target.previous || 0` collapses an
unset value and 0, so a plain rational suffices). -/
structure Slot where
  bcrSide  : ℚ
  previous : ℚ
deriving DecidableEq

/-- The per-container body of `__reposition` in `lite-list.js` (lines
537-569): move the container to `position` unless, out of infinite mode, the
projected placement would reach the maximum extent. -/
def repositionSlot (infinite : Bool) (maxSize position scroll : ℚ)
    (e : Slot) : Slot :=
  let previous := e.previous
  let travel := position - previous
  let placement := e.bcrSide + travel + scroll
  if infinite = false ∧ placement ≥ maxSize then e
  else { e with previous := position }

/-- `__reposition()` of `lite-list.js` (lines 537-569): recompute every sorted
container offset from the fixed section of the current virtual index.  The
`!this._virtualIndex` guard bails out at virtual index 0 (the
`typeof this._containerIndex` guard is vacuous for numeric inputs). -/
def reposition (infinite : Bool) (maxSize sampleSize scroll : ℚ)
    (virtualIndex containerIndex : Nat) (containersPer : ℚ)
    (sorted : List Slot) : List Slot :=
  if virtualIndex = 0 then sorted
  else
    let sectionIdx : ℚ := ((virtualIndex : ℚ) - (containerIndex : ℚ)) / containersPer
    let position := sampleSize * sectionIdx
    sorted.map (repositionSlot infinite maxSize position scroll)

/-- The `position` property values accepted by `getOffset` in the newer
lite-list revision (`'start' | 'center' | 'end'`). -/
inductive HostPosition
  | pStart
  | pCenter
  | pEnd
deriving DecidableEq

/-- `getOffset(hostSize, sampleSize, position)` of the newer lite-list revision
(src/unnamed/part_000, lines 763-779). -/
def getOffset (hostSize sampleSize : ℚ) : HostPosition → ℚ
  | HostPosition.pStart  => 0
  | HostPosition.pCenter => hostSize / 2 - sampleSize / 2
  | HostPosition.pEnd    => hostSize - sampleSize

/-- `__reposition()` of the newer lite-list revision (src/unnamed/part_000,
lines 1173-1245).  `margin` stands for the number returned by
`__getMarginNum()` (a fixed CSS-derived quantity).  `if (position)` treats
both `undefined` and `0` as falsy, hence the `p ≠ 0` test on the optional
result of `getPosition`. -/
def repositionV2 (infinite : Bool) (maxSize hostSize sampleSize scroll margin : ℚ)
    (hostPos : HostPosition) (direction : Direction)
    (virtualIndex containerCount : Nat) (containersPer : ℚ)
    (sorted : List Slot) : List Slot :=
  if virtualIndex = 0 then sorted
  else
    let offset := getOffset hostSize sampleSize hostPos
    let sectionIdx : ℚ := (virtualIndex : ℚ) / containersPer
    let distance := max 0 (sectionIdx - 1) * sampleSize
    let indexPosition := distance + offset
    let jump : ℚ := ((containerCount : ℚ) / containersPer) * sampleSize
    let currentShift : ℤ := ⌊sectionIdx / (containerCount : ℚ)⌋
    let currentShiftSize := (currentShift : ℚ) * jump
    let shiftForward := currentShiftSize + jump
    let shiftBack := currentShiftSize - jump
    let startPosition := if direction = Direction.forward
                         then indexPosition - margin
                         else shiftForward + margin
    let getPosition : ℚ → Option ℚ := fun placement =>
      if infinite = false ∧ placement < startPosition ∧ shiftForward < maxSize then
        some shiftForward
      else if infinite = false ∧ placement ≥ maxSize ∧ shiftBack ≥ 0 then
        some shiftBack
      else if indexPosition ≥ jump then
        some currentShiftSize
      else none
    sorted.map fun e =>
      let previous := e.previous
      let travel := currentShiftSize - previous
      let placement := e.bcrSide + travel + scroll
      match getPosition placement with
      | some p => if p ≠ 0 then { e with previous := p } else e
      | none => e

/-! ## Helper lemmas -/

/-- Pointwise description of a JavaScript splice whose start lies inside the
array: reads below the start and at or beyond the end of the deleted range see
the original array (shifted by the insertion/deletion difference), reads into
the inserted block see the inserted elements. -/
theorem jsSplice_getElem? (l : List β) (s c : Nat) (ins : List β)
    (hs : s ≤ l.length) (j : Nat) :
    (jsSplice l s c ins)[j]? =
      if j < s then l[j]?
      else if j < s + ins.length then ins[j - s]?
      else l[j + c - ins.length]? := by
  have hlen : (l.take s).length = s := by simp [List.length_take]; omega
  by_cases h1 : j < s
  · simp only [jsSplice, List.append_assoc, List.getElem?_append, hlen, h1,
      if_pos, if_true]
    rw [List.getElem?_take]
    simp [h1]
  · by_cases h2 : j < s + ins.length
    · simp only [jsSplice, List.append_assoc, List.getElem?_append, hlen]
      rw [if_neg h1, if_neg h1, if_pos h2, if_pos (by omega : j - s < ins.length)]
    · simp only [jsSplice, List.append_assoc, List.getElem?_append, hlen]
      rw [if_neg h1, if_neg h1, if_neg h2,
        if_neg (by omega : ¬ j - s < ins.length), List.getElem?_drop]
      congr 1
      omega

/-- A splice that deletes as many elements as it inserts, wholly inside the
array, preserves the array length. -/
theorem jsSplice_length (l : List β) (s c : Nat) (ins : List β)
    (hins : ins.length = c) (h : s + c ≤ l.length) :
    (jsSplice l s c ins).length = l.length := by
  simp [jsSplice, List.length_take, List.length_drop]
  omega

/-! ## Claim theorems -/

/-- Claim C1 (amended): for `0 ≤ s ≤ L`, the Data Window returns
`items.slice(s, s+P)` when not infinite (exactly `P` items when `s+P ≤ L`);
when infinite and `s+P > L` it returns `items.slice(s) ++ items.slice(0,
s+P-L)`, and that wrapped window has length exactly `P` provided `s+P ≤ 2L`
(in particular whenever `P ≤ L`).  The amendment adds the `s+P ≤ 2L` proviso:
when `s+P > 2L` the head slice is clipped to the whole array and the window is
shorter than `P`. -/
theorem computeData_window (items : List α) (P s : Nat) (hs : s ≤ items.length) :
    (computeData false items P s = jsSlice items s (s + P)) ∧
    (s + P ≤ items.length → (computeData false items P s).length = P) ∧
    (items.length < s + P →
      computeData true items P s =
        items.drop s ++ items.take (s + P - items.length)) ∧
    (items.length < s + P → s + P ≤ 2 * items.length →
      (computeData true items P s).length = P) := by
  refine ⟨?_, ?_, ?_, ?_⟩
  · simp [computeData]
  · intro h
    simp [computeData, jsSlice, List.length_take, List.length_drop]
    omega
  · intro h
    simp only [computeData]
    rw [if_pos ⟨trivial, h⟩]
  · intro h h2
    simp only [computeData]
    rw [if_pos ⟨trivial, h⟩]
    simp [List.length_take, List.length_drop]
    omega

/-- Witness for C1 at the concrete input `items = [1,2,3,4,5]`, `P = 3`,
`s = 4`: the wrapped window `[5, 1, 2]` has length exactly `P = 3`
(here `s + P = 7 ≤ 10 = 2L`). -/
theorem computeData_window_witness :
    (computeData true [1, 2, 3, 4, 5] 3 4).length = 3 :=
  (computeData_window ([1, 2, 3, 4, 5] : List Nat) 3 4 (by decide)).2.2.2
    (by decide) (by decide)

/-- Counterexample for C1 as stated: with `L = 1`, `s = 0 ≤ L`, `P = 3`,
infinite, the slice runs past the end (`s + P = 3 > 1`) but the wrapped
concatenation has total length `2`, not `P = 3` — the claimed "total length is
exactly P" fails without a `s + P ≤ 2L` (for instance `P ≤ L`) proviso. -/
theorem computeData_wrap_counterexample :
    0 ≤ ([0] : List Nat).length ∧
    ([0] : List Nat).length < 0 + 3 ∧
    (computeData true ([0] : List Nat) 3 0).length ≠ 3 := by decide

/-- The sampled extent along the scroll axis is positive whenever both box
dimensions are. -/
theorem itemSize_pos (l : Layout) (b : Bbox) (hh : 0 < b.height)
    (hw : 0 < b.width) : 0 < itemSize l b := by
  unfold itemSize
  split
  · exact hh
  · exact hw

/-- With measured geometry of positive extent, the guards of
`__computeVirtualIndex` pass and the result is the floor formula. -/
theorem computeVirtualIndex_formula (l : Layout) (b : Bbox) (per : Nat)
    (s : ℚ) (hh : 0 < b.height) (hw : 0 < b.width) :
    computeVirtualIndex (some l) (some b) per (some s)
      = ⌊|s - itemStart l b| / itemSize l b⌋ * per := by
  simp only [computeVirtualIndex, if_neg
    (by push_neg; exact ⟨ne_of_gt hh, ne_of_gt hw⟩ :
      ¬ (b.height = 0 ∨ b.width = 0))]
  rw [abs_div, abs_of_pos (itemSize_pos l b hh hw)]

/-- Claim C2: with measured geometry of positive extent, the Virtual Index
Calculator returns `floor(|scrollOffset - itemStart| / itemSize) *
itemsPerLine`; it returns 0 whenever an input is missing or the sampled box
has a zero dimension; and the recycled-list variant is the same computation
with an items-per-line factor of 1.  (Being a pure function of its arguments,
the embedding has no side effects.) -/
theorem computeVirtualIndex_spec (l : Layout) (b : Bbox) (per : Nat) (s : ℚ)
    (hh : 0 < b.height) (hw : 0 < b.width) :
    computeVirtualIndex (some l) (some b) per (some s)
      = ⌊|s - itemStart l b| / itemSize l b⌋ * per ∧
    (∀ (l' : Layout) (b' : Bbox) (p' : Nat) (s' : ℚ),
      b'.height = 0 ∨ b'.width = 0 →
      computeVirtualIndex (some l') (some b') p' (some s') = 0) ∧
    (∀ (lo : Option Layout) (bo : Option Bbox) (p' : Nat) (so : Option ℚ),
      lo = none ∨ bo = none ∨ so = none → computeVirtualIndex lo bo p' so = 0) ∧
    (∀ (lo : Option Layout) (bo : Option Bbox) (so : Option ℚ),
      computeVirtualIndexRecycled lo bo so = computeVirtualIndex lo bo 1 so) := by
  refine ⟨computeVirtualIndex_formula l b per s hh hw, ?_, ?_, ?_⟩
  · intro l' b' p' s' h
    rcases h with h | h <;> simp [computeVirtualIndex, h]
  · rintro lo bo p' so (rfl | rfl | rfl) <;> simp [computeVirtualIndex]
  · intro lo bo so
    cases lo <;> cases bo <;> cases so <;>
      simp [computeVirtualIndex, computeVirtualIndexRecycled]

/-- Witness for C2 at the specification scenario: itemSize 150, leading edge
0, scroll offset 900, one item per line gives virtual index 6. -/
theorem computeVirtualIndex_spec_witness :
    computeVirtualIndex (some Layout.vertical) (some ⟨0, 0, 150, 150⟩) 1
      (some 900) = 6 := by
  have h := (computeVirtualIndex_spec Layout.vertical ⟨0, 0, 150, 150⟩ 1 900
    (by norm_num) (by norm_num)).1
  rw [h]
  simp [itemStart, itemSize]
  norm_num

/-- Claim C6 (amended): for fixed positive item size and fixed measured
geometry, the virtual index is monotonically non-decreasing in the scroll
offset on all offsets at or beyond the leading-edge coordinate of the item;
the amendment restricts the claim to `itemStart ≤ s1`, because below the
leading edge the absolute value makes the index decrease again. -/
theorem computeVirtualIndex_mono (l : Layout) (b : Bbox) (per : Nat)
    (s1 s2 : ℚ) (hh : 0 < b.height) (hw : 0 < b.width)
    (hstart : itemStart l b ≤ s1) (h12 : s1 ≤ s2) :
    computeVirtualIndex (some l) (some b) per (some s1)
      ≤ computeVirtualIndex (some l) (some b) per (some s2) := by
  have hsize : 0 < itemSize l b := itemSize_pos l b hh hw
  rw [computeVirtualIndex_formula l b per s1 hh hw,
    computeVirtualIndex_formula l b per s2 hh hw]
  have ha1 : |s1 - itemStart l b| = s1 - itemStart l b :=
    abs_of_nonneg (by linarith)
  have ha2 : |s2 - itemStart l b| = s2 - itemStart l b :=
    abs_of_nonneg (by linarith)
  rw [ha1, ha2]
  have hdiv : (s1 - itemStart l b) / itemSize l b
      ≤ (s2 - itemStart l b) / itemSize l b := by
    exact div_le_div_of_nonneg_right (by linarith) hsize.le
  exact mul_le_mul_of_nonneg_right (Int.floor_le_floor hdiv)
    (Int.ofNat_nonneg per)

/-- Witness for C6 (amended) with itemStart 0 ≤ 900 ≤ 1050. -/
theorem computeVirtualIndex_mono_witness :
    computeVirtualIndex (some Layout.vertical) (some ⟨0, 0, 150, 150⟩) 1
        (some 900)
      ≤ computeVirtualIndex (some Layout.vertical) (some ⟨0, 0, 150, 150⟩) 1
        (some 1050) := by
  apply computeVirtualIndex_mono Layout.vertical ⟨0, 0, 150, 150⟩ 1 900 1050
    (by norm_num) (by norm_num) ?_ (by norm_num)
  · simp [itemStart]

/-- Counterexample for C6 as stated: with the item leading edge measured at
coordinate 100 (fixed geometry, item size 10, one item per line), the scroll
offsets 0 ≤ 50 yield virtual indices 10 and 5 — the index strictly decreases,
because the source takes the absolute value of `scroll - beginning`. -/
theorem virtualIndex_mono_counterexample :
    (0 : ℚ) ≤ 50 ∧
    computeVirtualIndex (some Layout.vertical) (some ⟨100, 0, 10, 10⟩) 1
      (some 0) = 10 ∧
    computeVirtualIndex (some Layout.vertical) (some ⟨100, 0, 10, 10⟩) 1
      (some 50) = 5 ∧
    ¬ computeVirtualIndex (some Layout.vertical) (some ⟨100, 0, 10, 10⟩) 1
        (some 0)
      ≤ computeVirtualIndex (some Layout.vertical) (some ⟨100, 0, 10, 10⟩) 1
        (some 50) := by
  have h0 : computeVirtualIndex (some Layout.vertical) (some ⟨100, 0, 10, 10⟩) 1
      (some 0) = 10 := by
    simp [computeVirtualIndex, itemStart, itemSize]
    norm_num
  have h50 : computeVirtualIndex (some Layout.vertical) (some ⟨100, 0, 10, 10⟩) 1
      (some 50) = 5 := by
    simp [computeVirtualIndex, itemStart, itemSize]
    norm_num
  refine ⟨by norm_num, h0, h50, ?_⟩
  rw [h0, h50]
  norm_num

/-- Claim C3 (amended): `_endDetected` becomes true after a resolved fetch
exactly when the stored results count actually changes, to a value strictly
smaller than the previously recorded count (recorded by a fetch of either
direction), while the pagination direction is forward; a fetch whose count
differs but does not satisfy that condition clears the flag, and a fetch
whose count equals the previously recorded one leaves the flag unchanged
(the Polymer observer does not fire).  The previously recorded count is not
necessarily that of the previous forward fetch. -/
theorem recordFetch_endDetected (dir : Option Direction) (c : Nat)
    (s : EndState) :
    ((recordFetch dir c s).endDetected = true ↔
      (s.resultsCount = some c ∧ s.endDetected = true) ∨
      (∃ old, s.resultsCount = some old ∧ c < old ∧
        dir = some Direction.forward)) ∧
    (recordFetch dir c s).resultsCount = some c := by
  constructor
  · by_cases h : s.resultsCount = some c
    · simp only [recordFetch, if_pos h]
      constructor
      · intro he
        exact Or.inl ⟨h, he⟩
      · rintro (⟨_, he⟩ | ⟨old, hold, hlt, _⟩)
        · exact he
        · rw [h] at hold
          injection hold with hold
          omega
    · simp only [recordFetch, if_neg h, resultsCountChanged]
      cases hrc : s.resultsCount with
      | none => simp
      | some old =>
        simp only [Bool.and_eq_true, decide_eq_true_eq]
        constructor
        · rintro ⟨hlt, hdir⟩
          exact Or.inr ⟨old, rfl, hlt, hdir⟩
        · rintro (⟨hc, _⟩ | ⟨old2, hold2, hlt, hdir⟩)
          · exact absurd (hrc ▸ hc) h
          · injection hold2 with hold2
            exact ⟨by omega, hdir⟩
  · by_cases h : s.resultsCount = some c <;> simp [recordFetch, h]

/-- Counterexample for C3 as stated: fetches resolve with counts 20 (forward),
30 (reverse), then 25 (forward).  The final fetch is a forward fetch whose
count (25) is NOT smaller than the previous forward fetch count (20), so the
claim requires `endDetected` to be cleared — but the observer compares against
the previously recorded count of either direction (30, from the reverse
fetch), and leaves the flag set. -/
theorem resultsCount_cross_direction_counterexample :
    (runFetches ⟨none, false⟩
      [(some Direction.forward, 20), (some Direction.reverse, 30),
       (some Direction.forward, 25)]).endDetected = true := by decide

/-- Claim C4 (amended): every entry nulled by the bounds-checked garbage
collector of the newer DbListMixin revision lies at integer distance at least
`2 * batchSize` from the anchor index (strictly more in the forward direction,
exactly `2 * batchSize` being reachable on the reverse side), and the
operation never writes outside the backing array: every change happens at an
in-range index and the array length is preserved.  The older
`db-list-mixin.js` collector violates the distance bound (see the
counterexample), which is what forces restricting the claim to the
bounds-checked revision. -/
theorem garbageCollect_safe (minBatch batchSize i : Nat) (dir : Direction)
    (l : List (Option α)) (j : Nat)
    (hch : (garbageCollect minBatch true i dir batchSize l)[j]? ≠ l[j]?) :
    j < l.length ∧ 2 * batchSize ≤ ((i : ℤ) - (j : ℤ)).natAbs ∧
    (garbageCollect minBatch true i dir batchSize l).length = l.length := by
  simp only [garbageCollect, clamp] at hch ⊢
  cases dir <;>
  · simp only [reduceCtorEq, reduceIte, if_true, if_false] at hch ⊢
    split at hch
    · exact absurd rfl hch
    · rename_i hg1
      rw [if_neg hg1]
      split at hch
      · exact absurd rfl hch
      · rename_i hg2
        rw [if_neg hg2]
        push_neg at hg2
        obtain ⟨hs0, hsc, hc0⟩ := hg2
        rw [jsSplice_getElem? _ _ _ _ (by omega) j, List.length_replicate]
          at hch
        split_ifs at hch with h1 h2
        · exact absurd rfl hch
        · refine ⟨by omega, by omega, ?_⟩
          exact jsSplice_length _ _ _ _ (List.length_replicate _ _) (by omega)
        · rw [show j + _ - _ = j from by omega] at hch
          exact absurd rfl hch

/-- Witness for C4 (amended): a reverse-direction collection with batch size
21 (above the minimum 20) anchored at index 0 on a 63-entry array nulls the
top batch; the entry at index 42 changes, sits in range, at distance exactly
`2 * batchSize = 42` from the anchor, and the array length is preserved. -/
theorem garbageCollect_safe_witness :
    42 < (List.replicate 63 (some (0 : Nat))).length ∧
    2 * 21 ≤ ((0 : ℤ) - (42 : ℤ)).natAbs ∧
    (garbageCollect 20 true 0 Direction.reverse 21
      (List.replicate 63 (some (0 : Nat)))).length
      = (List.replicate 63 (some (0 : Nat))).length :=
  garbageCollect_safe 20 21 0 Direction.reverse
    (List.replicate 63 (some (0 : Nat))) 42 (by decide)

/-- Counterexample for C4 as stated: the `db-list-mixin.js` garbage collector
(`_min = 8`, `_max = 10`, anchor index 30, forward travel, 40 loaded entries)
nulls the entries at indices 20 through 29 — the entry at index 29 is set to
undefined although it lies at distance 1, well within `2 * batchSize = 20` of
the anchor. -/
theorem garbageCollectDb_counterexample :
    (garbageCollectDb 8 10 true 30 (some Direction.forward)
      (List.replicate 40 (some (0 : Nat))))[29]? = some none ∧
    (List.replicate 40 (some (0 : Nat)))[29]? = some (some 0) ∧
    ((30 : ℤ) - (29 : ℤ)).natAbs ≤ 2 * 10 := by decide

/-- Claim C5 (amended, proved of the newer DbListMixin revision whose formulas
the claim quotes): a reverse fetch resolving with a non-empty batch of valid
records anchored at an in-range index `i ≥ count - 1` splices the REVERSED
batch into the backing array over exactly the slots `i-(count-1) .. i` — the
reversed batch occupies the block ending at the anchor, the anchor slot
receives the first record of the raw batch, and every slot after the anchor is
untouched — while a forward fetch splices the batch unreversed starting at the
anchor slot `i`.  The older `db-list-mixin.js` callback does neither the
reversal nor the `max(0, ...)` clamp (see the counterexample). -/
theorem spliceIn_spec (vr : List α) (i : Nat) (l : List (Option α))
    (hne : vr ≠ []) (hi : vr.length - 1 ≤ i) (hil : i < l.length) :
    (spliceIn Direction.reverse vr i l).length = l.length ∧
    (∀ k, k < vr.length →
      (spliceIn Direction.reverse vr i l)[i - (vr.length - 1) + k]?
        = (vr.reverse[k]?).map some) ∧
    (spliceIn Direction.reverse vr i l)[i]? = (vr[0]?).map some ∧
    (∀ j, i < j → (spliceIn Direction.reverse vr i l)[j]? = l[j]?) ∧
    (∀ k, k < vr.length →
      (spliceIn Direction.forward vr i l)[i + k]? = (vr[k]?).map some) := by
  have hc : 0 < vr.length := List.length_pos.mpr hne
  have hT : (max 0 ((i : ℤ) - ((vr.length : ℤ) - 1))).toNat
      = i - (vr.length - 1) := by omega
  have hform : spliceIn Direction.reverse vr i l
      = jsSplice l (i - (vr.length - 1)) vr.length (vr.reverse.map some) := by
    simp only [spliceIn, reduceIte, List.length_reverse, hT]
  have hformF : spliceIn Direction.forward vr i l
      = jsSplice l i vr.length (vr.map some) := by
    simp only [spliceIn, reduceCtorEq, reduceIte, Int.toNat_natCast]
  have hins : (vr.reverse.map (some : α → Option α)).length = vr.length := by
    simp
  have hrange : i - (vr.length - 1) ≤ l.length := by omega
  have hmid : ∀ k, k < vr.length →
      (spliceIn Direction.reverse vr i l)[i - (vr.length - 1) + k]?
        = (vr.reverse[k]?).map some := by
    intro k hk
    rw [hform, jsSplice_getElem? _ _ _ _ hrange, hins,
      if_neg (by omega), if_pos (by omega),
      show i - (vr.length - 1) + k - (i - (vr.length - 1)) = k from by omega,
      List.getElem?_map]
  refine ⟨?_, hmid, ?_, ?_, ?_⟩
  · rw [hform]
    exact jsSplice_length _ _ _ _ hins (by omega)
  · have h0 := hmid (vr.length - 1) (by omega)
    rw [show i - (vr.length - 1) + (vr.length - 1) = i from by omega] at h0
    rw [h0, List.getElem?_reverse (by omega : vr.length - 1 < vr.length),
      show vr.length - 1 - (vr.length - 1) = 0 from by omega]
  · intro j hj
    rw [hform, jsSplice_getElem? _ _ _ _ hrange, hins,
      if_neg (by omega), if_neg (by omega),
      show j + vr.length - vr.length = j from by omega]
  · intro k hk
    rw [hformF, jsSplice_getElem? _ _ _ _ (by omega), List.length_map,
      if_neg (by omega), if_pos (by omega),
      show i + k - i = k from by omega, List.getElem?_map]

/-- Witness for C5 (amended): a reverse batch `[10, 20]` anchored at index 5
of an 8-entry array lands reversed on slots 4 and 5 — the anchor slot 5
receives the first raw record, 10. -/
theorem spliceIn_spec_witness :
    (spliceIn Direction.reverse [(10 : Nat), 20] 5
      (List.replicate 8 (some 0)))[5]?
      = (([(10 : Nat), 20])[0]?).map some := by
  have h := (spliceIn_spec [(10 : Nat), 20] 5 (List.replicate 8 (some 0))
    (by decide) (by decide) (by decide)).2.2.1
  exact h

/-- Counterexample for C5 as stated: the `db-list-mixin.js` callback splices a
reverse batch `[10, 20]` anchored at index 5 WITHOUT reversing it, so the
result differs from the claimed behavior (reversed batch spliced at
`max(0, 5 - (2-1)) = 4`): the anchor slot 5 receives the last record 20
instead of the first record 10. -/
theorem spliceInDb_counterexample :
    spliceInDb Direction.reverse [(10 : Nat), 20] 5 (List.replicate 8 (some 0))
      ≠ jsSplice (List.replicate 8 (some (0 : Nat))) 4 2
          (([(10 : Nat), 20].reverse).map some) ∧
    (spliceInDb Direction.reverse [(10 : Nat), 20] 5
      (List.replicate 8 (some 0)))[5]? = some (some 20) ∧
    (jsSplice (List.replicate 8 (some (0 : Nat))) 4 2
      (([(10 : Nat), 20].reverse).map some))[5]? = some (some 10) := by decide

/-- Claim C7: while `_endDetected` is set, a pagination event whose index is
at or beyond the index of the currently stored pagination is suppressed: the
handler returns before touching any state, so `_pagination` and
`_paginationWaiting` are unchanged and (fetches being driven exclusively by
`_pagination` through the `_index` observer) no new fetch is started. -/
theorem paginationChangedHandler_suppress (s : PgState) (p q : Pgn)
    (hq : s.pagination = some q) (he : s.endDetected = true)
    (hi : q.index ≤ p.index) :
    paginationChangedHandler s p = s := by
  rw [paginationChangedHandler, hq]
  rw [if_pos]
  simp [he, hi]

/-- Witness for C7: a stored forward pagination at index 3 with the end
detected suppresses an incoming event at index 5. -/
theorem paginationChangedHandler_suppress_witness :
    paginationChangedHandler
      ⟨some ⟨8, Direction.forward, 3, 1⟩, none, false, true, 4⟩
      ⟨8, Direction.forward, 5, 1⟩
      = ⟨some ⟨8, Direction.forward, 3, 1⟩, none, false, true, 4⟩ :=
  paginationChangedHandler_suppress
    ⟨some ⟨8, Direction.forward, 3, 1⟩, none, false, true, 4⟩
    ⟨8, Direction.forward, 5, 1⟩ ⟨8, Direction.forward, 3, 1⟩
    rfl rfl (by decide)

/-- One application of the lite-list reposition body leaves a slot in a state
the body maps to itself: either the slot was skipped (guard) and a second pass
skips it again, or it was moved to `position` and a second pass either skips
it (no change) or moves it to `position` again. -/
theorem repositionSlot_idem (infinite : Bool) (maxSize position scroll : ℚ)
    (e : Slot) :
    repositionSlot infinite maxSize position scroll
      (repositionSlot infinite maxSize position scroll e)
      = repositionSlot infinite maxSize position scroll e := by
  unfold repositionSlot
  by_cases h1 : infinite = false ∧ e.bcrSide + (position - e.previous) + scroll ≥ maxSize
  · simp only [if_pos h1]
  · simp only [if_neg h1]
    by_cases h2 : infinite = false ∧ e.bcrSide + (position - position) + scroll ≥ maxSize
    · simp only [if_pos h2]
    · simp only [if_neg h2]

/-- Claim C8 (amended): `__reposition` of `lite-list.js` is idempotent — for a
fixed virtual index, container pool state (the sorted snapshot with its
bounding-box measurements), and scroll position, applying it twice yields
exactly the container offsets of applying it once.  The rewritten
`__reposition` of the newer lite-list revision is NOT idempotent (see the
counterexample), so the claim must be restricted to the `lite-list.js`
implementation. -/
theorem reposition_idem (infinite : Bool) (maxSize sampleSize scroll : ℚ)
    (virtualIndex containerIndex : Nat) (containersPer : ℚ)
    (sorted : List Slot) :
    reposition infinite maxSize sampleSize scroll virtualIndex containerIndex
      containersPer
      (reposition infinite maxSize sampleSize scroll virtualIndex
        containerIndex containersPer sorted)
      = reposition infinite maxSize sampleSize scroll virtualIndex
          containerIndex containersPer sorted := by
  unfold reposition
  by_cases h : virtualIndex = 0
  · simp only [if_pos h]
  · simp only [if_neg h, List.map_map]
    refine List.map_eq_map_iff.mpr ?_
    intro e _
    exact repositionSlot_idem _ _ _ _ e

/-- Counterexample for C8 as stated: the rewritten reposition of the newer
lite-list revision, at a single fixed state (finite mode, maxSize 2000,
sample size 100, scroll 300, virtual index 12, 6 containers, 1 per line,
margin 0, forward direction), moves a container with cached offset 3000 and
measured coordinate 2400 to `shiftForward = 1800` on the first application
and then on to `shiftBack = 600` on the second — two consecutive applications
do not produce the same layout. -/
theorem repositionV2_counterexample :
    repositionV2 false 2000 800 100 300 0 HostPosition.pStart Direction.forward
        12 6 1 [⟨2400, 3000⟩] = [⟨2400, 1800⟩] ∧
    repositionV2 false 2000 800 100 300 0 HostPosition.pStart Direction.forward
        12 6 1 [⟨2400, 1800⟩] = [⟨2400, 600⟩] ∧
    repositionV2 false 2000 800 100 300 0 HostPosition.pStart Direction.forward
        12 6 1
        (repositionV2 false 2000 800 100 300 0 HostPosition.pStart
          Direction.forward 12 6 1 [⟨2400, 3000⟩])
      ≠ repositionV2 false 2000 800 100 300 0 HostPosition.pStart
          Direction.forward 12 6 1 [⟨2400, 3000⟩] := by
  have h1 : repositionV2 false 2000 800 100 300 0 HostPosition.pStart
      Direction.forward 12 6 1 [⟨2400, 3000⟩] = [⟨2400, 1800⟩] := by
    simp [repositionV2, getOffset]
    norm_num
  have h2 : repositionV2 false 2000 800 100 300 0 HostPosition.pStart
      Direction.forward 12 6 1 [⟨2400, 1800⟩] = [⟨2400, 600⟩] := by
    simp [repositionV2, getOffset]
    norm_num
  refine ⟨h1, h2, ?_⟩
  rw [h1, h2]
  intro hcon
  have := List.head_eq_of_cons_eq hcon
  simp [Slot.mk.injEq] at this

/-- Claim C9: a fetch error whose message contains the anchor-missing marker
is ignored — the backing array is unchanged and nothing is reported — while
any other error (different message, or no message at all) resets the backing
array to undefined and reports the error; the callback performs no retry
(it starts no new subscription, being a pure early-return / reset). -/
theorem errorCallback_spec (err : JsError) (li : Option (List (Option Rec)))
    (m : List Char) (hm : err.message = some m) :
    (docMissingMsg <:+: m → errorCallback err li = (li, false)) ∧
    (¬ docMissingMsg <:+: m → errorCallback err li = (none, true)) ∧
    (∀ li' : Option (List (Option Rec)),
      errorCallback ⟨none⟩ li' = (none, true)) := by
  have hmsg : docMissingMsg ≠ [] := by decide
  refine ⟨?_, ?_, fun li' => rfl⟩
  · intro hinf
    have hne : m ≠ [] := by
      intro hcon
      rw [hcon] at hinf
      exact hmsg (List.eq_nil_of_infix_nil hinf)
    simp only [errorCallback, hm]
    rw [if_pos (show m ≠ [] ∧ docMissingMsg <:+: m from ⟨hne, hinf⟩)]
  · intro hninf
    simp only [errorCallback, hm]
    rw [if_neg]
    intro hcon
    exact hninf hcon.2

/-- Witness for C9: the literal error `{message: 'document does not exist'}`
raised by the snapshot handler leaves a one-record backing array untouched and
reports nothing. -/
theorem errorCallback_spec_witness :
    errorCallback ⟨some docMissingMsg⟩ (some [some ⟨some 7⟩])
      = (some [some ⟨some 7⟩], false) :=
  (errorCallback_spec ⟨some docMissingMsg⟩ (some [some ⟨some 7⟩])
    docMissingMsg rfl).1 (List.infix_rfl)

/-- Claim C10: a subscription update targeting an anchor index `i > 0` whose
backing-array entry is absent (array missing, index out of range, slot nulled
by garbage collection, or record without a doc) is a complete no-op — the
guard returns before the unsubscribe, the busy flag, the garbage collection,
or the query construction are reached — and, in general, whenever the update
does start a fetch at a positive index, the `startAt` anchor it builds is
exactly the present doc of the backing entry, so the anchor read never
dereferences a missing record. -/
theorem updateItems_guard (visible : Bool) (numConstraints numReverse : Nat)
    (hasRef : Bool) (batchSize i : Nat) (dir : Direction)
    (li : Option (List (Option Rec)))
    (hi : 0 < i) (habs : entryDoc li i = none) :
    updateItems visible numConstraints numReverse hasRef batchSize i dir li
      = UpdateEffect.noop ∧
    (∀ (v : Bool) (nc nr : Nat) (r : Bool) (bs j : Nat) (d : Direction)
       (li' : Option (List (Option Rec))) (a : Option Nat) (ur : Bool)
       (lim : Nat),
       updateItems v nc nr r bs j d li' = UpdateEffect.fetch a ur lim →
       0 < j →
       ∃ dd, entryDoc li' j = some dd ∧ a = some dd) := by
  constructor
  · rw [updateItems, if_pos]
    exact Or.inr (Or.inr (Or.inr (Or.inr ⟨hi, habs⟩)))
  · intro v nc nr r bs j d li' a ur lim hfetch hj
    rw [updateItems] at hfetch
    split at hfetch
    · exact absurd hfetch (by simp)
    · rename_i hguard
      push_neg at hguard
      obtain ⟨-, -, -, -, hdoc⟩ := hguard
      split at hfetch
      · exact absurd hfetch (by simp)
      · rw [UpdateEffect.fetch.injEq] at hfetch
        obtain ⟨ha, -, -⟩ := hfetch
        obtain ⟨dd, hdd⟩ := Option.ne_none_iff_exists.mp (hdoc hj)
        refine ⟨dd, hdd.symm, ?_⟩
        rw [← ha, if_pos hj, hdd]

/-- Witness for C10: an update at anchor index 1 over a one-entry backing
array (so the entry at 1 is absent) is a no-op even with all other inputs
available. -/
theorem updateItems_guard_witness :
    updateItems true 1 1 true 20 1 Direction.forward
      (some [some ⟨some 3⟩]) = UpdateEffect.noop :=
  (updateItems_guard true 1 1 true 20 1 Direction.forward
    (some [some ⟨some 3⟩]) (by decide) (by decide)).1
